import Mathlib

/-!
Verification development for the Nightscout data integration
(rustytek/nightScoutData).

The coordinator in src/coordinator.py fetches three HTTP endpoints per
refresh cycle (glucose entries, treatments, server status), classifies
failures and assembles a flat data record read by the sensor entities in
src/sensor.py.  The richer client-library variant lives in src/__init__.py.
The definitions below are a shallow embedding of that code: network
responses are explicit values, exceptions become an error type whose
constructors mirror the exception classes the Python code raises or lets
escape, and Python dicts are association lists.
-/

namespace Nightscout

/-- Flat JSON-ish value as it occurs in the payload fields the coordinator
reads (sgv numbers, direction strings, null for Python None). -/
inductive JVal where
  | null
  | bool (b : Bool)
  | num (q : Rat)
  | str (s : String)
deriving DecidableEq

/-- A Python dict with string keys, as an association list. -/
abbrev Obj := List (String × JVal)

/-- Python dict.get: the value under a key, or null (None) when absent. -/
def objGet (o : Obj) (k : String) : JVal :=
  (o.lookup k).getD .null

/-- Modelled from the spec: src/coordinator.py imports GLUCOSE_VALUE,
TIME_VALUE, TREND_VALUE, IOB_VALUE, COB_VALUE, BASAL_VALUE, ALARM_VALUE and
UPDATE_INTERVAL_SECONDS from src/const.py, but the const.py in this
snapshot defines only SENSOR_TYPES; the definitions of those constants are
missing from src/.  The key strings are modelled from the spec's canonical
record and from src/sensor.py, which reads the glucose value under the
literal key "sgv" and the trend under "direction". -/
def GLUCOSE_VALUE : String := "sgv"

/-- Modelled from the spec: see GLUCOSE_VALUE.  The timestamp key, named
after the upstream dateString field the coordinator copies. -/
def TIME_VALUE : String := "dateString"

/-- Modelled from the spec: see GLUCOSE_VALUE. -/
def TREND_VALUE : String := "direction"

/-- Modelled from the spec: see GLUCOSE_VALUE. -/
def IOB_VALUE : String := "iob"

/-- Modelled from the spec: see GLUCOSE_VALUE. -/
def COB_VALUE : String := "cob"

/-- Modelled from the spec: see GLUCOSE_VALUE. -/
def BASAL_VALUE : String := "basal"

/-- Modelled from the spec: see GLUCOSE_VALUE. -/
def ALARM_VALUE : String := "alarm"

/-- NightscoutDataUpdateCoordinator._process_entries (src/coordinator.py):
an empty entries list yields an empty dict; otherwise the first entry's
sgv, dateString and direction fields (dict.get, so possibly None) are
stored under the three canonical keys. -/
def processEntries : List Obj → Obj
  | [] => []
  | latest :: _ =>
    [(GLUCOSE_VALUE, objGet latest "sgv"),
     (TIME_VALUE, objGet latest "dateString"),
     (TREND_VALUE, objGet latest "direction")]

/-- Outcome of awaiting resp.json() on a response: either the parsed value,
or an exception.  aiohttp raises ContentTypeError (an aiohttp.ClientError)
for a non-JSON content type, and json.JSONDecodeError (a ValueError, not a
ClientError) for an undecodable body; the two are caught differently by
the coordinator, so the embedding keeps them apart. -/
inductive ParseResult (α : Type) where
  | clientErr
  | valueErr
  | ok (a : α)

/-- One endpoint's behaviour in a cycle: either the GET itself raises an
aiohttp.ClientError (network error, per-request timeout surfaced as a
client error), or a response arrives with a status code and a body whose
parse outcome is given. -/
inductive EndpointResp (α : Type) where
  | netErr
  | resp (status : Nat) (body : ParseResult α)

/-- Reason carried by the UpdateFailed exceptions _async_update_data
raises: the outer `except aiohttp.ClientError` handler, a non-200 glucose
status, or a glucose body that failed to parse. -/
inductive FailReason where
  | clientError
  | glucoseHttp (status : Nat)
  | glucoseParse
deriving DecidableEq

/-- How a refresh cycle fails: ConfigEntryAuthFailed (carrying the HTTP
status the code interpolates into its message), UpdateFailed, or an
exception that escapes _async_update_data uncaught (a JSONDecodeError
raised while parsing a best-effort endpoint's body is caught by no handler
in the function). -/
inductive CycleErr where
  | authFailed (status : Nat)
  | updateFailed (r : FailReason)
  | uncaught
deriving DecidableEq

/-- Result of one call to _async_update_data: the returned dict, or the
exception that escaped. -/
inductive CycleOutcome where
  | ok (d : Obj)
  | err (e : CycleErr)
deriving DecidableEq

/-- Treatment block of _async_update_data (src/coordinator.py).  A network
error is an aiohttp.ClientError caught by the outer handler and re-raised
as UpdateFailed; a non-200 status only logs a warning and leaves the
result unchanged (the body is never parsed); on a 200 response the body is
parsed — a ContentTypeError reaches the outer ClientError handler while a
JSONDecodeError escapes uncaught — and a non-empty treatments list stores
the first element's insulin, carbs and rate fields. -/
def treatStage (result : Obj) : EndpointResp (List Obj) → CycleOutcome
  | .netErr => .err (.updateFailed .clientError)
  | .resp st body =>
    if st ≠ 200 then .ok result
    else
      match body with
      | .clientErr => .err (.updateFailed .clientError)
      | .valueErr => .err .uncaught
      | .ok treatments =>
        match treatments with
        | [] => .ok result
        | latest :: _ =>
          .ok (result ++
            [(IOB_VALUE, objGet latest "insulin"),
             (COB_VALUE, objGet latest "carbs"),
             (BASAL_VALUE, objGet latest "rate")])

/-- Server-status block of _async_update_data (src/coordinator.py): same
error handling as the treatment block; on a parsed 200 response it stores
whether the payload's status field equals "warn". -/
def statusStage (result : Obj) : EndpointResp Obj → CycleOutcome
  | .netErr => .err (.updateFailed .clientError)
  | .resp st body =>
    if st ≠ 200 then .ok result
    else
      match body with
      | .clientErr => .err (.updateFailed .clientError)
      | .valueErr => .err .uncaught
      | .ok status =>
        .ok (result ++
          [(ALARM_VALUE, .bool (decide (objGet status "status" = .str "warn")))])

/-- NightscoutDataUpdateCoordinator._async_update_data (src/coordinator.py)
over the three endpoint behaviours of one cycle, in request order: glucose
entries, then treatments, then server status.  On the glucose endpoint a
network error becomes UpdateFailed via the outer ClientError handler, 401
and 403 raise ConfigEntryAuthFailed before anything else, any other
non-200 status raises UpdateFailed, and a body that fails to parse is
caught by the inner `except Exception` and re-raised as UpdateFailed. -/
def asyncUpdateData (g t : EndpointResp (List Obj)) (s : EndpointResp Obj) :
    CycleOutcome :=
  match g with
  | .netErr => .err (.updateFailed .clientError)
  | .resp st body =>
    if st = 401 ∨ st = 403 then .err (.authFailed st)
    else if st ≠ 200 then .err (.updateFailed (.glucoseHttp st))
    else
      match body with
      | .clientErr => .err (.updateFailed .glucoseParse)
      | .valueErr => .err (.updateFailed .glucoseParse)
      | .ok entries =>
        match treatStage (processEntries entries) t with
        | .err e => .err e
        | .ok r1 =>
          match statusStage r1 s with
          | .err e => .err e
          | .ok r2 => .ok r2

/-- Modelled from the spec: the host DataUpdateCoordinator (an out-of-scope
collaborator per the spec's scope section) keeps the previously cached
record when the update callback raises, and replaces it wholesale when the
callback returns a new record. -/
def coordinatorStep (cached : Option Obj) : CycleOutcome → Option Obj
  | .ok d => some d
  | .err _ => cached

/-- Python dict subscription d[k] (src/sensor.py uses it unguarded): the
value when the key is present, otherwise a KeyError. -/
def getItem (data : Obj) (k : String) : Except String JVal :=
  match data.lookup k with
  | some v => .ok v
  | none => .error "KeyError"

/-- NightscoutSensor.native_value (src/sensor.py).  Each branch first
checks the sensor key and that the coordinator data is truthy (non-empty,
with Python None modelled as the empty dict), then subscripts the data
dict directly; a final fallthrough returns None. -/
def nativeValue (key : String) (data : Obj) : Except String JVal :=
  if key = "sgv" ∧ data ≠ [] then getItem data "sgv"
  else if key = "sgv_mmol" ∧ data ≠ [] then getItem data "sgv_mmol"
  else if key = "delta" ∧ data ≠ [] then getItem data "delta"
  else if key = "delta_mmol" ∧ data ≠ [] then getItem data "delta_mmol"
  else if key = "direction" ∧ data ≠ [] then getItem data "direction"
  else .ok .null

/-- Base URL normalization shared by NightscoutDataUpdateCoordinator's
constructor (src/coordinator.py) and NightscoutConfigFlow._test_connection
(src/config_flow.py): append "/" only when the URL does not already end
with one (Python endswith on a one-character suffix is a last-character
test). -/
def normalizeUrl (s : String) : String :=
  if s.data.getLast? = some '/' then s else s ++ "/"

/-- The slash-discipline the spec demands of a normalized base URL: it
ends in a slash that is not preceded by another slash. -/
def endsWithExactlyOneSlash (s : String) : Prop :=
  s.data.getLast? = some '/' ∧ ¬ s.data.dropLast.getLast? = some '/'

instance (s : String) : Decidable (endsWithExactlyOneSlash s) := by
  unfold endsWithExactlyOneSlash; infer_instance

/-- Nested JSON value for device-status payloads, whose shape varies per
reporting system. -/
inductive DVal where
  | num (q : Rat)
  | str (s : String)
  | obj (fields : List (String × DVal))

/-- A device-status JSON object. -/
abbrev DObj := List (String × DVal)

/-- Field access on a device-status object returning a numeric value, or
none when the key is absent or non-numeric. -/
def numField (p : DObj) (k : String) : Option Rat :=
  match p.lookup k with
  | some (.num q) => some q
  | _ => none

/-- Field access on a device-status object returning a nested object, or
none when the key is absent or not an object. -/
def objField (p : DObj) (k : String) : Option DObj :=
  match p.lookup k with
  | some (.obj f) => some f
  | _ => none

/-- Modelled from the spec: the Device-Status Extractor is not present in
src/ — src/sensor.py's NightscoutAgeSensor only reads the already derived
cannula_age key from the coordinator data, and src/__init__.py's
NightscoutCoordinator stores the raw devicestatus payload without deriving
ages — so the raw cage lookup is modelled from the spec's extractor
section: candidate paths in priority order, most pump-specific first
(pump.status.cage, then top-level cage, then device.cage), stopping at the
first present value, never defaulting to zero. -/
def cannulaAgeSeconds (p : DObj) : Option Rat :=
  (((objField p "pump").bind fun pump =>
      (objField pump "status").bind fun st => numField st "cage").orElse
    fun _ => numField p "cage").orElse
    fun _ => (objField p "device").bind fun d => numField d "cage"

/-- Modelled from the spec: see cannulaAgeSeconds.  The cage candidates
report seconds, converted to hours by dividing by 3600. -/
def cannulaAgeHours (p : DObj) : Option Rat :=
  (cannulaAgeSeconds p).map fun secs => secs / 3600

/-- Device-status payload of the pump-integration family: ages nested
under pump.status, keyed by the short code cage, in seconds. -/
def pumpStatusShape (c : Rat) : DObj :=
  [("pump", .obj [("status", .obj [("cage", .num c)])])]

/-- Device-status payload of the direct-reporting family: cage as a
top-level seconds value. -/
def flatShape (c : Rat) : DObj :=
  [("cage", .num c)]

/-- Device-status payload of the third family: cage nested under a device
object, in seconds. -/
def deviceShape (c : Rat) : DObj :=
  [("device", .obj [("cage", .num c)])]

/-- One HTTP request a refresh cycle issues, with the per-request timeout
(in seconds) configured for it, if any. -/
structure RequestSpec where
  path : String
  perCallTimeoutSeconds : Option Nat
deriving DecidableEq

/-- The requests of one cycle of the token-auth variant
(src/coordinator.py): three GETs through a session built with
aiohttp.ClientTimeout total 10, which bounds each request. -/
def tokenVariantRequests : List RequestSpec :=
  [⟨"api/v1/entries/sgv?count=1", some 10⟩,
   ⟨"api/v1/treatments?count=1", some 10⟩,
   ⟨"api/v1/status", some 10⟩]

/-- The token-auth variant wraps no timeout around the cycle as a whole
(src/coordinator.py configures only the session-level per-request
timeout). -/
def tokenVariantCycleTimeoutSeconds : Option Nat := none

/-- The calls of one cycle of the richer client-library variant
(src/__init__.py _async_update_data): five sequential awaits against the
py_nightscout client, none of which is given its own timeout. -/
def richVariantRequests : List RequestSpec :=
  [⟨"get_sgvs", none⟩,
   ⟨"get_trend", none⟩,
   ⟨"get_iob", none⟩,
   ⟨"get_cob", none⟩,
   ⟨"get_device_status", none⟩]

/-- The richer variant wraps the whole sequence of awaits in a single
async_timeout.timeout of 10 seconds (src/__init__.py). -/
def richVariantCycleTimeoutSeconds : Option Nat := some 10

/-- SCAN_INTERVAL in src/__init__.py: timedelta of one minute. -/
def SCAN_INTERVAL_SECONDS : Nat := 60

/-- Modelled from the spec: UPDATE_INTERVAL_SECONDS, imported by
src/coordinator.py from src/const.py, is not defined in this snapshot's
const.py; the spec fixes the simpler token-auth variant's default
interval at 300 seconds. -/
def UPDATE_INTERVAL_SECONDS : Nat := 300

/-- Refresh interval of the richer variant: NightscoutCoordinator's
constructor (src/__init__.py) passes SCAN_INTERVAL. -/
def richVariantIntervalSeconds : Nat := SCAN_INTERVAL_SECONDS

/-- Refresh interval of the token-auth variant:
NightscoutDataUpdateCoordinator's constructor (src/coordinator.py) passes
a timedelta of UPDATE_INTERVAL_SECONDS. -/
def tokenVariantIntervalSeconds : Nat := UPDATE_INTERVAL_SECONDS

/-- The refresh interval async_setup_entry (src/__init__.py) ends up with
for a given config entry's data: it always constructs NightscoutCoordinator
with SCAN_INTERVAL, reading no interval or variant selection from the
entry. -/
def asyncSetupEntryInterval (_entryData : Obj) : Nat :=
  richVariantIntervalSeconds

/-- The endpoint behaviours after which a best-effort block of
_async_update_data raises nothing: a response whose body parses, or a
non-200 response, whose body is never parsed. -/
def noAbort {α : Type} : EndpointResp α → Bool
  | .netErr => false
  | .resp st body =>
    match body with
    | .ok _ => true
    | _ => decide (st ≠ 200)

/-- The keys the token-variant coordinator can ever store. -/
def coordKeys : List String :=
  [GLUCOSE_VALUE, TIME_VALUE, TREND_VALUE, IOB_VALUE, COB_VALUE, BASAL_VALUE,
   ALARM_VALUE]

theorem lookup_processEntries_eq_none (es : List Obj) (k : String)
    (h1 : k ≠ GLUCOSE_VALUE) (h2 : k ≠ TIME_VALUE) (h3 : k ≠ TREND_VALUE) :
    (processEntries es).lookup k = none := by
  cases es with
  | nil => simp [processEntries]
  | cons latest rest =>
    simp [processEntries, List.lookup_eq_none_iff, bne_iff_ne]
    exact ⟨h1, h2, h3⟩

theorem treatStage_ok_lookup (r : Obj) (t : EndpointResp (List Obj)) (d : Obj)
    (k : String) (h : treatStage r t = .ok d)
    (h1 : k ≠ IOB_VALUE) (h2 : k ≠ COB_VALUE) (h3 : k ≠ BASAL_VALUE) :
    d.lookup k = r.lookup k := by
  cases t with
  | netErr => exact absurd h (by simp [treatStage])
  | resp st body =>
    simp only [treatStage] at h
    split at h
    · cases h; rfl
    · cases body with
      | clientErr => exact absurd h (by simp)
      | valueErr => exact absurd h (by simp)
      | ok treatments =>
        cases treatments with
        | nil => cases h; rfl
        | cons latest rest =>
          cases h
          rw [List.lookup_append]
          have hnone :
              List.lookup k
                [(IOB_VALUE, objGet latest "insulin"),
                 (COB_VALUE, objGet latest "carbs"),
                 (BASAL_VALUE, objGet latest "rate")] = none := by
            simp [List.lookup_eq_none_iff, bne_iff_ne]
            exact ⟨h1, h2, h3⟩
          rw [hnone, Option.or_none]

theorem statusStage_ok_lookup (r : Obj) (s : EndpointResp Obj) (d : Obj)
    (k : String) (h : statusStage r s = .ok d) (h1 : k ≠ ALARM_VALUE) :
    d.lookup k = r.lookup k := by
  cases s with
  | netErr => exact absurd h (by simp [statusStage])
  | resp st body =>
    simp only [statusStage] at h
    split at h
    · cases h; rfl
    · cases body with
      | clientErr => exact absurd h (by simp)
      | valueErr => exact absurd h (by simp)
      | ok status =>
        cases h
        rw [List.lookup_append]
        have hnone :
            List.lookup k
              [(ALARM_VALUE,
                JVal.bool (decide (objGet status "status" = .str "warn")))] =
              none := by
          simp [List.lookup_eq_none_iff, bne_iff_ne]
          exact h1
        rw [hnone, Option.or_none]

theorem asyncUpdateData_ok_inv (g t : EndpointResp (List Obj))
    (s : EndpointResp Obj) (d : Obj) (h : asyncUpdateData g t s = .ok d) :
    ∃ entries r1, g = .resp 200 (.ok entries) ∧
      treatStage (processEntries entries) t = .ok r1 ∧
      statusStage r1 s = .ok d := by
  cases g with
  | netErr => exact absurd h (by simp [asyncUpdateData])
  | resp st body =>
    simp only [asyncUpdateData] at h
    split at h
    · exact absurd h (by simp)
    · next hauth =>
      split at h
      · exact absurd h (by simp)
      · next hst =>
        have h200 : st = 200 := not_not.mp hst
        subst h200
        cases body with
        | clientErr => exact absurd h (by simp)
        | valueErr => exact absurd h (by simp)
        | ok entries =>
          dsimp only at h
          cases htr : treatStage (processEntries entries) t with
          | err e => rw [htr] at h; exact absurd h (by simp)
          | ok r1 =>
            rw [htr] at h
            dsimp only at h
            cases hstatus : statusStage r1 s with
            | err e => rw [hstatus] at h; exact absurd h (by simp)
            | ok r2 =>
              rw [hstatus] at h
              cases h
              exact ⟨entries, r1, rfl, htr, hstatus⟩

theorem asyncUpdateData_lookup_eq_none (g t : EndpointResp (List Obj))
    (s : EndpointResp Obj) (d : Obj) (k : String)
    (hok : asyncUpdateData g t s = .ok d) (hk : k ∉ coordKeys) :
    d.lookup k = none := by
  obtain ⟨entries, r1, hg, htr, hstatus⟩ := asyncUpdateData_ok_inv g t s d hok
  simp [coordKeys] at hk
  obtain ⟨k1, k2, k3, k4, k5, k6, k7⟩ := hk
  rw [statusStage_ok_lookup r1 s d k hstatus k7,
    treatStage_ok_lookup (processEntries entries) t r1 k htr k4 k5 k6]
  exact lookup_processEntries_eq_none entries k k1 k2 k3

instance {ε α : Type} [DecidableEq ε] [DecidableEq α] :
    DecidableEq (Except ε α) := fun x y =>
  match x, y with
  | .ok a, .ok b =>
    match decEq a b with
    | isTrue h => isTrue (by rw [h])
    | isFalse h => isFalse (by intro hc; cases hc; exact h rfl)
  | .ok _, .error _ => isFalse (by intro hc; cases hc)
  | .error _, .ok _ => isFalse (by intro hc; cases hc)
  | .error e, .error f =>
    match decEq e f with
    | isTrue h => isTrue (by rw [h])
    | isFalse h => isFalse (by intro hc; cases hc; exact h rfl)

/-- C1: the claim says every published record carries glucoseMmol equal to
sgv divided by 18, and that the mg/dL and mmol/L fields are both present
or both absent.  Evaluating the code at a cycle whose latest entry has
sgv 180 shows the published record stores the mg/dL value but contains no
mmol key at all — no division by 18 exists anywhere in the coordinator —
and the sgv_mmol sensor's unguarded subscription raises KeyError, so the
unit pair is mg/dL-present, mmol-absent. -/
theorem mmol_never_published :
    processEntries
        [[("sgv", JVal.num 180), ("dateString", JVal.str "2024-01-01T00:00:00Z"),
          ("direction", JVal.str "Flat")]] =
      [(GLUCOSE_VALUE, JVal.num 180), (TIME_VALUE, JVal.str "2024-01-01T00:00:00Z"),
       (TREND_VALUE, JVal.str "Flat")] ∧
    (processEntries
        [[("sgv", JVal.num 180), ("dateString", JVal.str "2024-01-01T00:00:00Z"),
          ("direction", JVal.str "Flat")]]).lookup "sgv_mmol" = none ∧
    nativeValue "sgv_mmol"
        (processEntries
          [[("sgv", JVal.num 180), ("dateString", JVal.str "2024-01-01T00:00:00Z"),
            ("direction", JVal.str "Flat")]]) = .error "KeyError" ∧
    nativeValue "sgv"
        (processEntries
          [[("sgv", JVal.num 180), ("dateString", JVal.str "2024-01-01T00:00:00Z"),
            ("direction", JVal.str "Flat")]]) = .ok (JVal.num 180) := by
  decide

/-- C2: a 401 (or 403) from the glucose endpoint makes the whole cycle
fail with ConfigEntryAuthFailed — a constructor distinct from the
UpdateFailed and uncaught failure modes, so callers can react to
authentication failure specifically — and the host coordinator keeps the
previously cached record unchanged. -/
theorem glucose_auth_failure_fatal (st : Nat) (b : ParseResult (List Obj))
    (t : EndpointResp (List Obj)) (s : EndpointResp Obj) (cached : Option Obj)
    (h : st = 401 ∨ st = 403) :
    asyncUpdateData (.resp st b) t s = .err (.authFailed st) ∧
    coordinatorStep cached (asyncUpdateData (.resp st b) t s) = cached ∧
    (∀ r : FailReason, CycleErr.authFailed st ≠ .updateFailed r) ∧
    CycleErr.authFailed st ≠ .uncaught := by
  have h1 : asyncUpdateData (.resp st b) t s = .err (.authFailed st) := by
    simp only [asyncUpdateData]
    rw [if_pos h]
  exact ⟨h1, by rw [h1]; rfl, fun r hr => CycleErr.noConfusion hr,
    fun hu => CycleErr.noConfusion hu⟩

/-- Witness for C2 at HTTP status 401 with a cached record present. -/
theorem glucose_auth_failure_fatal_witness :
    asyncUpdateData (.resp 401 .clientErr) .netErr .netErr =
      .err (.authFailed 401) ∧
    coordinatorStep (some [("sgv", JVal.num 99)])
        (asyncUpdateData (.resp 401 .clientErr) .netErr .netErr) =
      some [("sgv", JVal.num 99)] :=
  ⟨(glucose_auth_failure_fatal 401 .clientErr .netErr .netErr
      (some [("sgv", JVal.num 99)]) (Or.inl rfl)).1,
   (glucose_auth_failure_fatal 401 .clientErr .netErr .netErr
      (some [("sgv", JVal.num 99)]) (Or.inl rfl)).2.1⟩

/-- C3 counterexample: a connectivity failure (aiohttp.ClientError) on the
treatment endpoint in a cycle whose glucose endpoint succeeded is caught
by the coordinator's outer handler and re-raised as UpdateFailed, aborting
the whole cycle — no record is published — contradicting the claim that
any treatment-endpoint failure is degraded and does not abort the
cycle. -/
theorem treatment_neterr_aborts_cycle :
    asyncUpdateData (.resp 200 (.ok [[("sgv", JVal.num 100)]])) .netErr
        (.resp 200 (.ok [("status", JVal.str "ok")])) =
      .err (.updateFailed .clientError) := by
  decide

/-- C3 amended: only a non-200 HTTP response from the treatment or
server-status endpoint is degraded: the cycle still publishes a record
whose glucose key carries the latest entry's sgv and whose iob, cob,
basal and alarm keys are absent.  Network errors and unparsable bodies on
those endpoints abort the cycle instead (see the counterexample), and the
token variant issues no device-status request at all. -/
theorem best_effort_http_error_degraded (tst sst : Nat)
    (tb : ParseResult (List Obj)) (sb : ParseResult Obj) (e : Obj)
    (ht : tst ≠ 200) (hs : sst ≠ 200) :
    asyncUpdateData (.resp 200 (.ok [e])) (.resp tst tb) (.resp sst sb) =
      .ok (processEntries [e]) ∧
    (processEntries [e]).lookup GLUCOSE_VALUE = some (objGet e "sgv") ∧
    (processEntries [e]).lookup IOB_VALUE = none ∧
    (processEntries [e]).lookup COB_VALUE = none ∧
    (processEntries [e]).lookup BASAL_VALUE = none ∧
    (processEntries [e]).lookup ALARM_VALUE = none := by
  refine ⟨?_, rfl, rfl, rfl, rfl, rfl⟩
  simp only [asyncUpdateData, treatStage]
  rw [if_neg (by decide), if_neg (by decide), if_pos ht]
  dsimp only
  simp only [statusStage]
  rw [if_pos hs]

/-- Witness for C3 amended: treatments answer 404 and status answers 500,
glucose succeeds with one entry. -/
theorem best_effort_http_error_degraded_witness :
    asyncUpdateData (.resp 200 (.ok [[("sgv", JVal.num 100)]]))
        (.resp 404 .clientErr) (.resp 500 .clientErr) =
      .ok (processEntries [[("sgv", JVal.num 100)]]) ∧
    (processEntries [[("sgv", JVal.num 100)]]).lookup GLUCOSE_VALUE =
      some (objGet [("sgv", JVal.num 100)] "sgv") ∧
    (processEntries [[("sgv", JVal.num 100)]]).lookup IOB_VALUE = none ∧
    (processEntries [[("sgv", JVal.num 100)]]).lookup COB_VALUE = none ∧
    (processEntries [[("sgv", JVal.num 100)]]).lookup BASAL_VALUE = none ∧
    (processEntries [[("sgv", JVal.num 100)]]).lookup ALARM_VALUE = none :=
  best_effort_http_error_degraded 404 500 .clientErr .clientErr
    [("sgv", JVal.num 100)] (by decide) (by decide)

/-- C4: for each of the three known device-status shapes carrying a cage
of 7200 seconds — nested pump.status, flat top-level, device-nested — the
modelled extractor derives a cannula age of 2 hours, dividing seconds by
3600. -/
theorem cage_7200_gives_two_hours :
    cannulaAgeHours (pumpStatusShape 7200) = some 2 ∧
    cannulaAgeHours (flatShape 7200) = some 2 ∧
    cannulaAgeHours (deviceShape 7200) = some 2 := by
  have h : (7200 : Rat) / 3600 = 2 := by norm_num
  refine ⟨?_, ?_, ?_⟩ <;>
    · show some ((7200 : Rat) / 3600) = some 2
      rw [h]

/-- C5: every non-empty record a refresh cycle publishes only ever holds
the glucose value, timestamp, direction, iob, cob, basal and alarm keys,
so the sensors keyed delta, sgv_mmol and delta_mmol subscript a key that
is never present and raise KeyError instead of returning None. -/
theorem sensor_mmol_delta_keyerror (g t : EndpointResp (List Obj))
    (s : EndpointResp Obj) (d : Obj)
    (hok : asyncUpdateData g t s = .ok d) (hne : d ≠ []) :
    nativeValue "delta" d = .error "KeyError" ∧
    nativeValue "sgv_mmol" d = .error "KeyError" ∧
    nativeValue "delta_mmol" d = .error "KeyError" := by
  have hd : d.lookup "delta" = none :=
    asyncUpdateData_lookup_eq_none g t s d "delta" hok (by decide)
  have hm : d.lookup "sgv_mmol" = none :=
    asyncUpdateData_lookup_eq_none g t s d "sgv_mmol" hok (by decide)
  have hdm : d.lookup "delta_mmol" = none :=
    asyncUpdateData_lookup_eq_none g t s d "delta_mmol" hok (by decide)
  refine ⟨?_, ?_, ?_⟩ <;>
    simp [nativeValue, getItem, hne, hd, hm, hdm]

/-- Witness for C5 on a cycle where only the glucose endpoint delivered
data. -/
theorem sensor_mmol_delta_keyerror_witness :
    nativeValue "delta"
        [("sgv", JVal.num 100), ("dateString", JVal.null),
         ("direction", JVal.null)] = .error "KeyError" ∧
    nativeValue "sgv_mmol"
        [("sgv", JVal.num 100), ("dateString", JVal.null),
         ("direction", JVal.null)] = .error "KeyError" ∧
    nativeValue "delta_mmol"
        [("sgv", JVal.num 100), ("dateString", JVal.null),
         ("direction", JVal.null)] = .error "KeyError" :=
  sensor_mmol_delta_keyerror (.resp 200 (.ok [[("sgv", JVal.num 100)]]))
    (.resp 500 .clientErr) (.resp 500 .clientErr)
    [("sgv", JVal.num 100), ("dateString", JVal.null), ("direction", JVal.null)]
    (by decide) (by decide)

/-- C6 counterexample: the richer variant's first call carries no per-call
timeout, and that variant wraps the whole cycle in a single 10-second
timeout — refuting both halves of the claim (every individual request
bounded by a 10-second per-call timeout; no whole-cycle timeout). -/
theorem rich_variant_timeout_shape :
    RequestSpec.mk "get_sgvs" none ∈ richVariantRequests ∧
    (RequestSpec.mk "get_sgvs" none).perCallTimeoutSeconds ≠ some 10 ∧
    richVariantCycleTimeoutSeconds = some 10 := by
  decide

/-- C6 amended: in the token-auth variant every request is bounded by the
session-level 10-second timeout and no separate whole-cycle timeout
exists; in the richer client-library variant no call has its own timeout
and instead a single 10-second timeout bounds the whole cycle of
sequential calls. -/
theorem timeout_placement :
    (∀ r ∈ tokenVariantRequests, r.perCallTimeoutSeconds = some 10) ∧
    tokenVariantCycleTimeoutSeconds = none ∧
    (∀ r ∈ richVariantRequests, r.perCallTimeoutSeconds = none) ∧
    richVariantCycleTimeoutSeconds = some 10 := by
  decide

/-- Witness for C6 amended at the token variant's glucose request. -/
theorem timeout_placement_witness :
    (RequestSpec.mk "api/v1/entries/sgv?count=1"
      (some 10)).perCallTimeoutSeconds = some 10 :=
  timeout_placement.1 (RequestSpec.mk "api/v1/entries/sgv?count=1" (some 10))
    (by decide)

/-- C7 counterexample: a configured base URL already ending in two slashes
is left unchanged by the normalization, so the result does not end in
exactly one slash as the claim states for every configured base URL. -/
theorem double_slash_preserved :
    normalizeUrl "https://example.com//" = "https://example.com//" ∧
    ¬ endsWithExactlyOneSlash (normalizeUrl "https://example.com//") := by
  decide

/-- C7 amended: the normalization guarantees the base URL ends with at
least one slash — appending one exactly when the URL does not already end
in a slash, so the no-trailing-slash scenario of the claim holds — but it
never strips surplus slashes. -/
theorem normalize_url_appends_slash :
    (∀ s : String, (normalizeUrl s).data.getLast? = some '/') ∧
    normalizeUrl "https://example.com" = "https://example.com/" := by
  constructor
  · intro s
    unfold normalizeUrl
    split
    · next h => exact h
    · show (s ++ "/").data.getLast? = some '/'
      rw [String.data_append]
      exact List.getLast?_concat _
  · decide

/-- C8: a cycle whose glucose endpoint answers 200 with an empty entries
array is not fatal — provided the best-effort endpoints do not raise, the
coordinator returns a record — and all glucose-derived keys are absent
from that record. -/
theorem empty_entries_not_fatal (t : EndpointResp (List Obj))
    (s : EndpointResp Obj) (ht : noAbort t = true) (hs : noAbort s = true) :
    ∃ d, asyncUpdateData (.resp 200 (.ok [])) t s = .ok d ∧
      d.lookup GLUCOSE_VALUE = none ∧ d.lookup TIME_VALUE = none ∧
      d.lookup TREND_VALUE = none := by
  have htr : ∃ r1, treatStage (processEntries []) t = .ok r1 := by
    cases t with
    | netErr => exact absurd ht (by simp [noAbort])
    | resp st body =>
      by_cases h200 : st = 200
      · subst h200
        cases body with
        | clientErr => exact absurd ht (by simp [noAbort])
        | valueErr => exact absurd ht (by simp [noAbort])
        | ok treatments =>
          cases treatments with
          | nil => exact ⟨processEntries [], by simp [treatStage]⟩
          | cons latest rest =>
            exact ⟨processEntries [] ++
              [(IOB_VALUE, objGet latest "insulin"),
               (COB_VALUE, objGet latest "carbs"),
               (BASAL_VALUE, objGet latest "rate")], by simp [treatStage]⟩
      · refine ⟨processEntries [], ?_⟩
        simp only [treatStage]
        rw [if_pos h200]
  obtain ⟨r1, htr⟩ := htr
  have hstatus : ∃ d, statusStage r1 s = .ok d := by
    cases s with
    | netErr => exact absurd hs (by simp [noAbort])
    | resp st body =>
      by_cases h200 : st = 200
      · subst h200
        cases body with
        | clientErr => exact absurd hs (by simp [noAbort])
        | valueErr => exact absurd hs (by simp [noAbort])
        | ok status =>
          exact ⟨r1 ++
            [(ALARM_VALUE,
              JVal.bool (decide (objGet status "status" = .str "warn")))],
            by simp [statusStage]⟩
      · refine ⟨r1, ?_⟩
        simp only [statusStage]
        rw [if_pos h200]
  obtain ⟨d, hstatus⟩ := hstatus
  refine ⟨d, ?_, ?_, ?_, ?_⟩
  · simp only [asyncUpdateData]
    rw [if_neg (by decide), if_neg (by decide), htr]
    dsimp only
    rw [hstatus]
  all_goals
    rw [statusStage_ok_lookup r1 s d _ hstatus (by decide),
      treatStage_ok_lookup (processEntries []) t r1 _ htr (by decide)
        (by decide) (by decide)]
    rfl

/-- Witness for C8 with treatments answering 404 and status delivering an
empty object. -/
theorem empty_entries_not_fatal_witness :
    ∃ d, asyncUpdateData (.resp 200 (.ok [])) (.resp 404 .clientErr)
        (.resp 200 (.ok [])) = .ok d ∧
      d.lookup GLUCOSE_VALUE = none ∧ d.lookup TIME_VALUE = none ∧
      d.lookup TREND_VALUE = none :=
  empty_entries_not_fatal (.resp 404 .clientErr) (.resp 200 (.ok []))
    (by decide) (by decide)

/-- C9: when the server-status endpoint succeeds, the alarm field is true
exactly when the status string equals "warn": a warn payload publishes
alarm true and an ok payload publishes alarm false, alongside the glucose
fields. -/
theorem status_warn_sets_alarm :
    asyncUpdateData (.resp 200 (.ok [[("sgv", JVal.num 120)]]))
        (.resp 404 .clientErr) (.resp 200 (.ok [("status", JVal.str "warn")])) =
      .ok [(GLUCOSE_VALUE, JVal.num 120), (TIME_VALUE, JVal.null),
           (TREND_VALUE, JVal.null), (ALARM_VALUE, JVal.bool true)] ∧
    asyncUpdateData (.resp 200 (.ok [[("sgv", JVal.num 120)]]))
        (.resp 404 .clientErr) (.resp 200 (.ok [("status", JVal.str "ok")])) =
      .ok [(GLUCOSE_VALUE, JVal.num 120), (TIME_VALUE, JVal.null),
           (TREND_VALUE, JVal.null), (ALARM_VALUE, JVal.bool false)] := by
  decide

/-- C10 counterexample: async_setup_entry derives the refresh interval
from no part of the config entry — even an entry carrying an explicit
interval field still yields the richer variant's 60 seconds — so
configuration cannot select the 300-second variant as the claim
states. -/
theorem interval_config_ignored :
    asyncSetupEntryInterval [("update_interval", JVal.num 300)] = 60 ∧
    (60 : Nat) ≠ 300 := by
  decide

/-- C10 amended: the richer variant's interval is fixed at 60 seconds and
the token-auth variant's modelled constant is 300 seconds, but setup
always instantiates the richer coordinator and no configuration input
changes the interval. -/
theorem fixed_intervals_per_variant :
    richVariantIntervalSeconds = 60 ∧ tokenVariantIntervalSeconds = 300 ∧
    ∀ c : Obj, asyncSetupEntryInterval c = 60 :=
  ⟨rfl, rfl, fun _ => rfl⟩

end Nightscout
